import Mathlib

/-!
# Verification of the advancedcharts chart-configuration logic

Shallow embedding of the TypeScript sources of the `advancedcharts`
repository, covering:

* `src/app9522/src/chartConfigurations.ts` — the `chartConfigs` table and
  `getChartConfig` (the Configuration Resolver);
* `src/app9522/src/TradingViewWidget.tsx` — the inline `createWidgetConfig`
  switch, the widget-host lifecycle handlers (`cleanupWidget`,
  `initializeWidget`, `handleChartTypeChange`, `handleSymbolChange`, the
  script-loading effect and the keyboard-navigation effect);
* `src/app9522/src/AdvancedCharts.tsx` — the inline short-volume
  `compareSymbol` derivation.

JavaScript strings are embedded as Lean `String`; `String.prototype.split`
with a single-character separator is embedded as `jsSplit` below, and JS
array indexing / `.pop()` as `Option`-returning lookups.  Chart-type tags
travel through the JS code as plain strings (the `ChartType` enums are
string enums), so tags are embedded as `String` and the TS `Record` /
`switch` lookups as string comparisons, which is what they compile to.
A thrown `TypeError` is embedded as `Option.none`.
-/

/-- JS `s.split(sep)` for a single-character separator, on character lists:
`[] ↦ [[]]` (JS `"".split(':') = [""]`), splitting at every occurrence of
`sep` and keeping empty segments, exactly as `String.prototype.split`. -/
def jsSplitCore (sep : Char) : List Char → List (List Char)
  | [] => [[]]
  | c :: cs =>
    if c = sep then
      [] :: jsSplitCore sep cs
    else
      match jsSplitCore sep cs with
      | [] => [[c]]
      | g :: gs => (c :: g) :: gs

/-- JS `s.split(sep)` for a single-character separator, on `String`. -/
def jsSplit (sep : Char) (s : String) : List String :=
  (jsSplitCore sep s.data).map String.mk

/-- JS array indexing `a[i]` (returning `undefined` out of range). -/
def jsIndex (l : List String) (i : Nat) : Option String :=
  l.get? i

/-- JS `a.pop()` on an array read non-destructively (the sources only use it
on the freshly built array `sym.split(':')`): the last element, or
`undefined` on an empty array. -/
def jsPop (l : List String) : Option String :=
  l.getLast?

/-- `sym.split(':').pop() || sym` from `TradingViewWidget.tsx`
(`createWidgetConfig`) and from the `ChartType.ShortInterest` entry of
`chartConfigs` in `chartConfigurations.ts`: the segment after the last
colon, falling back to the whole symbol when that segment is falsy
(`undefined` or the empty string). -/
def stockSymbolOf (sym : String) : String :=
  match jsPop (jsSplit ':' sym) with
  | none => sym
  | some t => if t = "" then sym else t

/-- The short-volume symbol derivation
`FINRA:\x7b...\x7d_SHORT_VOLUME` shared by
`chartConfigs[ChartType.ShortInterest].compareSymbols[0].symbol` and the
`ChartType.ShortInterest` case of `createWidgetConfig`. -/
def shortVolumeSymbol (sym : String) : String :=
  "FINRA:" ++ stockSymbolOf sym ++ "_SHORT_VOLUME"

/-- The inline derivation in `AdvancedCharts.tsx`:
`FINRA:\x7bsymbol.split(':')[1]\x7d_SHORT_VOLUME`.  A missing index-1
segment is JS `undefined`, which a template literal renders as the string
`"undefined"`. -/
def advancedChartsCompareSymbol (symbol : String) : String :=
  "FINRA:" ++
    (match jsIndex (jsSplit ':' symbol) 1 with
     | some s => s
     | none => "undefined") ++
    "_SHORT_VOLUME"

/-- The `symbol` field of a `CompareSymbol` in `chartConfigurations.ts`:
`string | ((sym: string) => string)`. -/
inductive SymField where
  | str (s : String)
  | fn (f : String → String)

/-- `CompareSymbol` from `chartConfigurations.ts`. -/
structure CompareSymbol where
  symbol : SymField
  title : Option String
  position : String

/-- `ChartConfig` from `chartConfigurations.ts` (`studies` entries are plain
strings everywhere in the table, so the `string | Study` union is embedded
at its string alternative). -/
structure ChartConfig where
  compareSymbols : List CompareSymbol
  studies : List String

/-- `typeof cs.symbol === 'function' ? cs.symbol(symbol) : cs.symbol` from
`getChartConfig`. -/
def resolveSymField (f : SymField) (symbol : String) : String :=
  match f with
  | .str s => s
  | .fn g => g symbol

/-- `\x7b...cs, symbol: typeof cs.symbol === 'function' ?
cs.symbol(symbol) : cs.symbol\x7d` — the spread copy built by the `.map`
callback in `getChartConfig`. -/
def resolveCompareSymbol (cs : CompareSymbol) (symbol : String) :
    CompareSymbol :=
  { cs with symbol := .str (resolveSymField cs.symbol symbol) }

/-- `chartConfigs[ChartType.ShortInterest]`. -/
def shortInterestConfig : ChartConfig :=
  { compareSymbols := [{ symbol := .fn shortVolumeSymbol,
                         title := some "Short Volume",
                         position := "NewPane" }],
    studies := ["STD;Visible%1Average%1Price"] }

/-- `chartConfigs[ChartType.MACD]`. -/
def macdConfig : ChartConfig :=
  { compareSymbols := [{ symbol := .str "CME_MINI:NQ1!",
                         title := none,
                         position := "NewPriceScale" }],
    studies := ["MACD@tv-basicstudies"] }

/-- `chartConfigs[ChartType.RSI]`. -/
def rsiConfig : ChartConfig :=
  { compareSymbols := [{ symbol := .str "CME_MINI:ES1!",
                         title := none,
                         position := "NewPriceScale" }],
    studies := ["RSI@tv-basicstudies"] }

/-- `chartConfigs[ChartType.OBV]`. -/
def obvConfig : ChartConfig :=
  { compareSymbols := [], studies := ["OBV@tv-basicstudies"] }

/-- `chartConfigs[ChartType.AD]`. -/
def adConfig : ChartConfig :=
  { compareSymbols := [], studies := ["ACCD@tv-basicstudies"] }

/-- `chartConfigs[ChartType.LinearRegression]`. -/
def linearRegressionConfig : ChartConfig :=
  { compareSymbols := [],
    studies := ["LinearRegression@tv-basicstudies", "MF@tv-basicstudies"] }

/-- `chartConfigs[ChartType.ATR]`. -/
def atrConfig : ChartConfig :=
  { compareSymbols := [], studies := ["ATR@tv-basicstudies"] }

/-- `chartConfigs[ChartType.SlowStoch]`. -/
def slowStochConfig : ChartConfig :=
  { compareSymbols := [], studies := ["Stochastic@tv-basicstudies"] }

/-- The runtime object `chartConfigs` of `chartConfigurations.ts`: a JS
object keyed by the string values of the `ChartType` enum of `types.ts`
(`'Short Interest'`, `'MACD'`, `'RSI'`, `'AD'`, `'Linear Regression'`,
`'OBV'`, `'ATR'`, `'Slow Stochastic'`).  Indexing with any other string
yields `undefined`, embedded as `none`. -/
def chartConfigs (type : String) : Option ChartConfig :=
  if type = "Short Interest" then some shortInterestConfig
  else if type = "MACD" then some macdConfig
  else if type = "RSI" then some rsiConfig
  else if type = "AD" then some adConfig
  else if type = "Linear Regression" then some linearRegressionConfig
  else if type = "OBV" then some obvConfig
  else if type = "ATR" then some atrConfig
  else if type = "Slow Stochastic" then some slowStochConfig
  else none

/-- The string values of the `ChartType` enum of `types.ts`, i.e. the keys
of `chartConfigs`. -/
def chartTypeTags : List String :=
  ["Short Interest", "MACD", "RSI", "AD", "Linear Regression", "OBV",
   "ATR", "Slow Stochastic"]

/-- `getChartConfig` from `chartConfigurations.ts`.  `chartConfigs[type]`
is `undefined` for a tag outside the enum, and the subsequent
`config.compareSymbols.map(...)` then throws a `TypeError`; the throw is
embedded as `none`. -/
def getChartConfig (type : String) (symbol : String) : Option ChartConfig :=
  match chartConfigs type with
  | none => none
  | some config =>
    some { config with
           compareSymbols :=
             config.compareSymbols.map
               (fun cs => resolveCompareSymbol cs symbol) }

/-!
## The widget host (`TradingViewWidget.tsx` of `src/app9522`)

The component's own (seven-value) `ChartType` enum, the inline
`createWidgetConfig` switch, and the lifecycle handlers.  React function
components are embedded as an explicit state machine: an event handler
created at a render reads the `useState` values of that render (they are
`const` bindings of the render scope), while `setX` calls only update the
state carried to the next render, and `useRef`/`window` reads are live.
Events are assumed to arrive with the component re-rendered since the last
event, so a handler's render snapshot is the state at event entry.
-/

/-- `Object.values(ChartType)` for the local enum of `TradingViewWidget.tsx`
(declaration order; this enum has no `LinearRegression` member). -/
def widgetChartTypes : List String :=
  ["Short Interest", "MACD", "RSI", "OBV", "AD", "ATR", "Slow Stochastic"]

/-- A resolved `CompareSymbol` of `TradingViewWidget.tsx` (its local
interface: `symbol` is a plain string). -/
structure CompareSymbolR where
  symbol : String
  title : Option String
  position : String
deriving DecidableEq

/-- The `switch (type)` of `createWidgetConfig` in `TradingViewWidget.tsx`:
the chart-type-dependent `compareSymbols` and `studies`.  The switch has no
`default` case, so an unmatched tag leaves both local variables at their
initial `[]`. -/
def createWidgetConfigCS (type : String) (sym : String) :
    List CompareSymbolR × List String :=
  let stockSymbol := stockSymbolOf sym
  if type = "Short Interest" then
    ([{ symbol := "FINRA:" ++ stockSymbol ++ "_SHORT_VOLUME",
        title := some "Short Volume", position := "NewPane" }],
     ["STD;Visible%1Average%1Price", "MFI@tv-basicstudies"])
  else if type = "MACD" then
    ([{ symbol := "CME_MINI:NQ1!", title := none,
        position := "NewPriceScale" }],
     ["MACD@tv-basicstudies"])
  else if type = "RSI" then
    ([{ symbol := "CME_MINI:ES1!", title := none,
        position := "NewPriceScale" }],
     ["RSI@tv-basicstudies"])
  else if type = "OBV" then ([], ["OBV@tv-basicstudies"])
  else if type = "AD" then ([], ["ACCD@tv-basicstudies"])
  else if type = "ATR" then ([], ["ATR@tv-basicstudies"])
  else if type = "Slow Stochastic" then ([], ["Stochastic@tv-basicstudies"])
  else ([], [])

/-- The configuration object returned by `createWidgetConfig`, restricted
to the fields that depend on the inputs (the remaining `baseConfig` fields
are constants). -/
structure WidgetConfig where
  symbol : String
  interval : String
  theme : String
  compareSymbols : List CompareSymbolR
  studies : List String
deriving DecidableEq

/-- `createWidgetConfig(type, sym)` of `TradingViewWidget.tsx` (the
`interval` and `theme` props are its `useCallback` dependencies). -/
def createWidgetConfig (interval theme type sym : String) : WidgetConfig :=
  { symbol := sym, interval := interval, theme := theme,
    compareSymbols := (createWidgetConfigCS type sym).1,
    studies := (createWidgetConfigCS type sym).2 }

/-- The observable state of a mounted `TradingViewWidget`: its `useState`
cells, the `interval`/`theme` props, whether `window.TradingView` exists
(set by a successful load of `tv.js`), the widget handles living in the
container `div`, and a count of `new TradingView.widget(...)` constructor
invocations. -/
structure HostState where
  chartType : String
  currentSymbol : String
  interval : String
  theme : String
  tvLoaded : Bool
  loading : Bool
  error : Option String
  container : List WidgetConfig
  instantiations : Nat
deriving DecidableEq

/-- `initializeWidget` as created at a render whose state had chart type
`snapType` and symbol `snapSym` (its `useCallback` closure captures those
two values).  `window.TradingView` and `containerRef.current` are live
reads of the current state; the widget constructor is taken to succeed, so
the `catch` branch is never entered. -/
def initializeWidgetFrom (snapType snapSym : String) (s : HostState) :
    HostState :=
  if s.tvLoaded then
    { s with
      container := s.container ++
        [createWidgetConfig s.interval s.theme snapType snapSym],
      instantiations := s.instantiations + 1,
      loading := false }
  else s

/-- The message set by `script.onerror`. -/
def scriptErrorMessage : String := "Failed to load TradingView library"

/-- Events a mounted host can receive: the external script's
`onload`/`onerror`, and the two input-change handlers. -/
inductive HostEvent where
  | scriptLoad
  | scriptError
  | chartTypeChange (t : String)
  | symbolChange (sym : String)
deriving DecidableEq

/-- One event step of the host.  `chartTypeChange`/`symbolChange` run
`setX`, then `cleanupWidget()` (clearing the container), then
`initializeWidget()` — where `initializeWidget` is the closure of the
render *before* the change, so it instantiates with the pre-change
`chartType`/`currentSymbol`.  `scriptLoad` first defines
`window.TradingView`, then runs the (freshly re-registered) `onload`
closure over the current state. -/
def hostStep (s : HostState) : HostEvent → HostState
  | .scriptLoad =>
    initializeWidgetFrom s.chartType s.currentSymbol
      { s with tvLoaded := true }
  | .scriptError =>
    { s with error := some scriptErrorMessage, loading := false }
  | .chartTypeChange t =>
    initializeWidgetFrom s.chartType s.currentSymbol
      { s with chartType := t, container := [] }
  | .symbolChange sym =>
    initializeWidgetFrom s.chartType s.currentSymbol
      { s with currentSymbol := sym, container := [] }

/-- The component's render output, abstracted to what the claims observe:
`if (error) return <div>Error: error</div>` renders the error message,
otherwise the widget UI is shown. -/
def renderOutput (s : HostState) : String :=
  match s.error with
  | some e => "Error: " ++ e
  | none => "widget"

/-- The state of a freshly mounted host with the given props
(`useState` initial values: `ChartType.ShortInterest`, `initialSymbol`,
`loading = true`, no error, empty container; `tv.js` not yet loaded). -/
def initialHostState (initialSymbol interval theme : String) : HostState :=
  { chartType := "Short Interest", currentSymbol := initialSymbol,
    interval := interval, theme := theme, tvLoaded := false,
    loading := true, error := none, container := [], instantiations := 0 }

/-!
### Micro-step view of `handleChartTypeChange`

For the teardown-before-creation claim the three statements of
`handleChartTypeChange` are split into primitive actions so every
intermediate state is observable.
-/

/-- The primitive statements of the change handlers. -/
inductive MicroAction where
  | setChartType (t : String)
  | clearContainer
  | initWidget (snapType snapSym : String)

/-- Effect of one primitive statement. -/
def applyMicro (s : HostState) : MicroAction → HostState
  | .setChartType t => { s with chartType := t }
  | .clearContainer => { s with container := [] }
  | .initWidget snapType snapSym => initializeWidgetFrom snapType snapSym s

/-- The statement sequence of `handleChartTypeChange(t)` run from
render-snapshot state `s`: `setChartType(t); cleanupWidget();
initializeWidget()` (the last closing over the snapshot values). -/
def handleChartTypeChangeActions (s : HostState) (t : String) :
    List MicroAction :=
  [.setChartType t, .clearContainer,
   .initWidget s.chartType s.currentSymbol]

/-- All states passed through while running a statement list. -/
def microStates (s : HostState) (acts : List MicroAction) :
    List HostState :=
  List.scanl applyMicro s acts

/-!
### Keyboard navigation (`handleKeyDown` effect of `TradingViewWidget.tsx`)
-/

/-- JS `Array.prototype.indexOf`: the index of the first occurrence, `-1`
when absent. -/
def jsIndexOf (l : List String) (x : String) : Int :=
  match l.indexOf? x with
  | some i => (i : Int)
  | none => -1

/-- `chartTypes[i]` for the `handleKeyDown` computed indices (always in
range there; out of range would be JS `undefined`, embedded by the
irrelevant default `""`). -/
def chartTypeAt (i : Int) : String :=
  widgetChartTypes.getD i.toNat ""

/-- `handleKeyDown` from the keyboard-navigation effect: on `ArrowLeft`
selects index `(currentIndex - 1 + chartTypes.length) % chartTypes.length`,
on `ArrowRight` index `(currentIndex + 1) % chartTypes.length`; any other
key leaves the selection unchanged (the handler then calls
`handleChartTypeChange` with the selected tag). -/
def handleKeyDown (key : String) (chartType : String) : String :=
  let chartTypes := widgetChartTypes
  let n : Int := chartTypes.length
  let currentIndex := jsIndexOf chartTypes chartType
  if key = "ArrowLeft" then
    chartTypeAt ((currentIndex - 1 + n) % n)
  else if key = "ArrowRight" then
    chartTypeAt ((currentIndex + 1) % n)
  else chartType

/-!
## Heap-level view of `getChartConfig` (for the purity claim)

To state that a call of `getChartConfig` leaves the module-level
`chartConfigs` table (and all other program state) unchanged, the JS object
graph is made explicit: the `CompareSymbol` objects of the table live in a
store addressed by allocation index, and the table maps each tag to the
indices of its `compareSymbols` entries plus its `studies` array.  Every JS
statement of `getChartConfig` is translated one-to-one: `chartConfigs[type]`
is a table read, the `.map` callback's spread `\x7b...cs, symbol: ...\x7d`
*allocates a fresh object* (it never writes through the table's
references), and the final spread builds the returned record.
-/

/-- The mutable world visible to `getChartConfig`: the store of allocated
`CompareSymbol` objects and the `chartConfigs` table (per tag: store
indices of its compare-symbol objects, and its studies). -/
structure JSWorld where
  store : List CompareSymbol
  table : List (String × (List Nat × List String))

/-- Store read `store[r]` (a dangling index reads an arbitrary fixed
object; well-formed worlds never dangle). -/
def storeRead (w : JSWorld) (r : Nat) : CompareSymbol :=
  w.store.getD r { symbol := .str "", title := none, position := "" }

/-- The `.map` body of `getChartConfig`, heap level: for each compare
symbol reference, read the object, build the spread copy with the resolved
`symbol` field, and allocate it; returns the references to the fresh
copies and the world after the allocations. -/
def allocResolved (w : JSWorld) (refs : List Nat) (symbol : String) :
    List Nat × JSWorld :=
  match refs with
  | [] => ([], w)
  | r :: rs =>
    let fresh := resolveCompareSymbol (storeRead w r) symbol
    let idx := w.store.length
    let w1 : JSWorld := { w with store := w.store ++ [fresh] }
    let rest := allocResolved w1 rs symbol
    (idx :: rest.1, rest.2)

/-- `getChartConfig` at heap level: `none` for the `TypeError` on an
unknown tag (reached before any write), otherwise the references of the
freshly resolved compare symbols with the studies, and the world after the
call. -/
def getChartConfigH (w : JSWorld) (type symbol : String) :
    Option (List Nat × List String) × JSWorld :=
  match w.table.lookup type with
  | none => (none, w)
  | some entry =>
    let alloc := allocResolved w entry.1 symbol
    (some (alloc.1, entry.2), alloc.2)

/-- Dereference a returned configuration into object values, for comparing
the results of two calls irrespective of allocation addresses. -/
def configValue (w : JSWorld) : Option (List Nat × List String) →
    Option (List CompareSymbol × List String)
  | none => none
  | some (refs, studies) => some (refs.map (storeRead w), studies)

/-- Well-formedness: every reference held by the table points into the
store. -/
def worldWF (w : JSWorld) : Bool :=
  w.table.all (fun e => e.2.1.all (fun r => r < w.store.length))

/-- The world at module initialization of `chartConfigurations.ts`: the
three compare-symbol objects literally present in the `chartConfigs`
source, and the table rows for the eight tags. -/
def initialWorld : JSWorld :=
  { store :=
      [{ symbol := .fn shortVolumeSymbol, title := some "Short Volume",
         position := "NewPane" },
       { symbol := .str "CME_MINI:NQ1!", title := none,
         position := "NewPriceScale" },
       { symbol := .str "CME_MINI:ES1!", title := none,
         position := "NewPriceScale" }],
    table :=
      [("Short Interest", ([0], ["STD;Visible%1Average%1Price"])),
       ("MACD", ([1], ["MACD@tv-basicstudies"])),
       ("RSI", ([2], ["RSI@tv-basicstudies"])),
       ("AD", ([], ["ACCD@tv-basicstudies"])),
       ("Linear Regression",
        ([], ["LinearRegression@tv-basicstudies", "MF@tv-basicstudies"])),
       ("OBV", ([], ["OBV@tv-basicstudies"])),
       ("ATR", ([], ["ATR@tv-basicstudies"])),
       ("Slow Stochastic", ([], ["Stochastic@tv-basicstudies"]))] }

/-!
## Helper lemmas about the split embedding
-/

/-- Splitting a separator-free character list yields that list alone. -/
theorem jsSplitCore_of_not_mem (sep : Char) (l : List Char)
    (h : sep ∉ l) : jsSplitCore sep l = [l] := by
  induction l with
  | nil => rfl
  | cons c cs ih =>
    have hc : ¬ c = sep := fun hEq => h (hEq ▸ List.mem_cons_self c cs)
    have hcs : sep ∉ cs := fun hm => h (List.mem_cons_of_mem c hm)
    simp [jsSplitCore, hc, ih hcs]

/-- Splitting at the first separator occurrence: the part before it becomes
the head segment. -/
theorem jsSplitCore_append (sep : Char) (l1 l2 : List Char)
    (h : sep ∉ l1) :
    jsSplitCore sep (l1 ++ sep :: l2) = l1 :: jsSplitCore sep l2 := by
  induction l1 with
  | nil => simp [jsSplitCore]
  | cons c cs ih =>
    have hc : ¬ c = sep := fun hEq => h (hEq ▸ List.mem_cons_self c cs)
    have hcs : sep ∉ cs := fun hm => h (List.mem_cons_of_mem c hm)
    have := ih hcs
    simp only [List.cons_append, jsSplitCore, hc, if_false,
               List.append_eq, this]

/-- `String.mk` is left inverse to `String.data`. -/
theorem stringMk_data (s : String) : String.mk s.data = s := by
  cases s
  rfl

/-- A symbol of the shape `EXCHANGE:TICKER` (neither part containing a
colon) splits into exactly its two parts. -/
theorem jsSplit_exchange_ticker (ex t : String)
    (hex : ':' ∉ ex.data) (ht : ':' ∉ t.data) :
    jsSplit ':' (ex ++ ":" ++ t) = [ex, t] := by
  have hdata : (ex ++ ":" ++ t).data = ex.data ++ ':' :: t.data := by
    rw [String.data_append, String.data_append, List.append_assoc]
    rfl
  unfold jsSplit
  rw [hdata, jsSplitCore_append ':' ex.data t.data hex,
      jsSplitCore_of_not_mem ':' t.data ht]
  simp [stringMk_data]

/-- On an `EXCHANGE:TICKER` symbol with a nonempty ticker,
`sym.split(':').pop() || sym` is the ticker. -/
theorem stockSymbolOf_exchange_ticker (ex t : String)
    (hex : ':' ∉ ex.data) (ht : ':' ∉ t.data) (hne : t ≠ "") :
    stockSymbolOf (ex ++ ":" ++ t) = t := by
  unfold stockSymbolOf jsPop
  rw [jsSplit_exchange_ticker ex t hex ht]
  simp [hne]

/-!
## C1 — ShortInterest secondary-symbol derivation
-/

/-- C1. For every base symbol of the form `EXCHANGE:TICKER` (neither part
containing a colon, ticker nonempty), the Configuration Resolver
`getChartConfig` at chart type ShortInterest returns the configuration
whose single compare symbol replaces the exchange by the fixed venue code
`FINRA` and appends `_SHORT_VOLUME` to the ticker. -/
theorem shortInterest_secondary_symbol (ex t : String)
    (hex : ':' ∉ ex.data) (ht : ':' ∉ t.data) (hne : t ≠ "") :
    getChartConfig "Short Interest" (ex ++ ":" ++ t) =
      some { compareSymbols :=
               [{ symbol := .str ("FINRA:" ++ t ++ "_SHORT_VOLUME"),
                  title := some "Short Volume", position := "NewPane" }],
             studies := ["STD;Visible%1Average%1Price"] } := by
  have hs : shortVolumeSymbol (ex ++ ":" ++ t) =
      "FINRA:" ++ t ++ "_SHORT_VOLUME" := by
    unfold shortVolumeSymbol
    rw [stockSymbolOf_exchange_ticker ex t hex ht hne]
  simp [getChartConfig, chartConfigs, shortInterestConfig,
        resolveCompareSymbol, resolveSymField, hs]

/-- C1 witness: in particular `NASDAQ:AAPL` derives
`FINRA:AAPL_SHORT_VOLUME`. -/
theorem shortInterest_secondary_symbol_witness :
    getChartConfig "Short Interest" ("NASDAQ" ++ ":" ++ "AAPL") =
      some { compareSymbols :=
               [{ symbol := .str "FINRA:AAPL_SHORT_VOLUME",
                  title := some "Short Volume", position := "NewPane" }],
             studies := ["STD;Visible%1Average%1Price"] } := by
  have h :=
    shortInterest_secondary_symbol "NASDAQ" "AAPL"
      (by decide) (by decide) (by decide)
  simpa using h

/-!
## C2 — resolver error paths
-/

/-- C2 counterexample: for the unrecognized tag `"Bogus"` the Configuration
Resolver `getChartConfig` does *not* return a default configuration — it
reads `undefined` from `chartConfigs` and the following
`config.compareSymbols.map` throws a `TypeError` (embedded as `none`), so
the resolver does signal an error. -/
theorem getChartConfig_unrecognized_throws :
    getChartConfig "Bogus" "AMEX:SPY" = none := by
  rfl

/-- C2 amended: for every recognized tag, `getChartConfig` returns a
configuration and signals no error; for a tag outside the recognized
enumeration `getChartConfig` fails with a `TypeError` instead of returning
a default, while the widget's inline `createWidgetConfig` switch falls
through to the default empty `compareSymbols`/`studies` without error. -/
theorem resolver_error_paths (type sym : String) :
    (type ∈ chartTypeTags → (getChartConfig type sym).isSome = true) ∧
    (type ∉ chartTypeTags → getChartConfig type sym = none) ∧
    (type ∉ widgetChartTypes → createWidgetConfigCS type sym = ([], [])) := by
  refine ⟨fun h => ?_, fun h => ?_, fun h => ?_⟩
  · fin_cases h <;> rfl
  · simp only [chartTypeTags, List.mem_cons, List.not_mem_nil, or_false,
               not_or] at h
    obtain ⟨h1, h2, h3, h4, h5, h6, h7, h8⟩ := h
    simp [getChartConfig, chartConfigs, h1, h2, h3, h4, h5, h6, h7, h8]
  · simp only [widgetChartTypes, List.mem_cons, List.not_mem_nil, or_false,
               not_or] at h
    obtain ⟨h1, h2, h3, h4, h5, h6, h7⟩ := h
    simp [createWidgetConfigCS, h1, h2, h3, h4, h5, h6, h7]

/-- C2 amended witness: at the unrecognized tag `"Bogus"`,
`getChartConfig` throws while `createWidgetConfigCS` yields the empty
default. -/
theorem resolver_error_paths_witness :
    getChartConfig "Bogus" "AMEX:SPY" = none ∧
    createWidgetConfigCS "Bogus" "AMEX:SPY" = ([], []) :=
  ⟨(resolver_error_paths "Bogus" "AMEX:SPY").2.1 (by decide),
   (resolver_error_paths "Bogus" "AMEX:SPY").2.2 (by decide)⟩

/-!
## C4 — fixed indicator identifier per chart type
-/

/-- The fixed indicator identifier the claim associates with each
chart-type tag: the six identifiers named in the claim, together with the
table's identifier for `Short Interest` (its moving-average study) and for
`Linear Regression`. -/
def fixedStudyId (type : String) : String :=
  if type = "Short Interest" then "STD;Visible%1Average%1Price"
  else if type = "MACD" then "MACD@tv-basicstudies"
  else if type = "RSI" then "RSI@tv-basicstudies"
  else if type = "AD" then "ACCD@tv-basicstudies"
  else if type = "Linear Regression" then "LinearRegression@tv-basicstudies"
  else if type = "OBV" then "OBV@tv-basicstudies"
  else if type = "ATR" then "ATR@tv-basicstudies"
  else if type = "Slow Stochastic" then "Stochastic@tv-basicstudies"
  else ""

/-- C4. Every supported chart-type tag resolves to a configuration whose
studies list is non-empty and contains the fixed indicator identifier for
that tag. -/
theorem supported_tags_have_fixed_study (type : String)
    (h : type ∈ chartTypeTags) (sym : String) :
    ∃ cfg, getChartConfig type sym = some cfg ∧
      cfg.studies ≠ [] ∧ fixedStudyId type ∈ cfg.studies := by
  fin_cases h <;> refine ⟨_, rfl, ?_, ?_⟩ <;>
    simp [fixedStudyId, shortInterestConfig, macdConfig, rsiConfig,
          adConfig, linearRegressionConfig, obvConfig, atrConfig,
          slowStochConfig]

/-- C4 witness at tag `MACD` and symbol `NASDAQ:AAPL`. -/
theorem supported_tags_have_fixed_study_witness :
    ∃ cfg, getChartConfig "MACD" "NASDAQ:AAPL" = some cfg ∧
      cfg.studies ≠ [] ∧ fixedStudyId "MACD" ∈ cfg.studies :=
  supported_tags_have_fixed_study "MACD" (by decide) "NASDAQ:AAPL"

/-!
## C9 — resolved configurations carry only string symbols
-/

/-- Whether the `symbol` field is at the string alternative of its
`string | ((sym: string) => string)` union type. -/
def SymField.isString : SymField → Bool
  | .str _ => true
  | .fn _ => false

/-- C9. Whenever `getChartConfig` returns a configuration, every entry of
its `compareSymbols` has a string-valued `symbol` field: the `.map`
callback applies any function-valued symbol to the input symbol, so no
unresolved symbol-generating function escapes. -/
theorem getChartConfig_symbols_resolved (type sym : String)
    (cfg : ChartConfig) (h : getChartConfig type sym = some cfg) :
    ∀ cs ∈ cfg.compareSymbols, cs.symbol.isString = true := by
  unfold getChartConfig at h
  cases hc : chartConfigs type with
  | none => rw [hc] at h; exact absurd h (by simp)
  | some config =>
    rw [hc] at h
    injection h with h'
    subst h'
    intro cs hmem
    simp only [List.mem_map] at hmem
    obtain ⟨orig, _, rfl⟩ := hmem
    rfl

/-- C9 witness at `Short Interest` / `NASDAQ:AAPL` (the one table entry
with a function-valued symbol). -/
theorem getChartConfig_symbols_resolved_witness :
    ({ symbol := SymField.str "FINRA:AAPL_SHORT_VOLUME",
       title := some "Short Volume",
       position := "NewPane" } : CompareSymbol).symbol.isString = true :=
  getChartConfig_symbols_resolved "Short Interest" "NASDAQ:AAPL"
    { compareSymbols := [{ symbol := .str "FINRA:AAPL_SHORT_VOLUME",
                           title := some "Short Volume",
                           position := "NewPane" }],
      studies := ["STD;Visible%1Average%1Price"] }
    rfl _ (List.mem_singleton.mpr rfl)

/-!
## C7 — circular keyboard navigation
-/

/-- C7. With the current chart type at index `i` of the widget's
enumeration of `n` chart types, `ArrowLeft` selects index
`(i - 1 + n) % n` (written `(i + n - 1) % n` over `Nat`) and `ArrowRight`
selects index `(i + 1) % n`; both computed indices are in bounds, so the
boundary indices wrap instead of faulting, and `ArrowRight` followed by
`ArrowLeft` returns to the original chart type. -/
theorem keyboard_navigation_wraps (i : Nat)
    (h : i < widgetChartTypes.length) :
    handleKeyDown "ArrowLeft" (widgetChartTypes.getD i "") =
      widgetChartTypes.getD
        ((i + widgetChartTypes.length - 1) % widgetChartTypes.length) "" ∧
    handleKeyDown "ArrowRight" (widgetChartTypes.getD i "") =
      widgetChartTypes.getD ((i + 1) % widgetChartTypes.length) "" ∧
    (i + widgetChartTypes.length - 1) % widgetChartTypes.length <
      widgetChartTypes.length ∧
    (i + 1) % widgetChartTypes.length < widgetChartTypes.length ∧
    handleKeyDown "ArrowLeft"
        (handleKeyDown "ArrowRight" (widgetChartTypes.getD i "")) =
      widgetChartTypes.getD i "" := by
  revert h
  revert i
  decide

/-- C7 witness at the boundary index `0` (wrapping to the last chart
type on `ArrowLeft`). -/
theorem keyboard_navigation_wraps_witness :
    handleKeyDown "ArrowLeft" (widgetChartTypes.getD 0 "") =
      widgetChartTypes.getD
        ((0 + widgetChartTypes.length - 1) % widgetChartTypes.length) "" ∧
    handleKeyDown "ArrowRight" (widgetChartTypes.getD 0 "") =
      widgetChartTypes.getD ((0 + 1) % widgetChartTypes.length) "" ∧
    (0 + widgetChartTypes.length - 1) % widgetChartTypes.length <
      widgetChartTypes.length ∧
    (0 + 1) % widgetChartTypes.length < widgetChartTypes.length ∧
    handleKeyDown "ArrowLeft"
        (handleKeyDown "ArrowRight" (widgetChartTypes.getD 0 "")) =
      widgetChartTypes.getD 0 "" :=
  keyboard_navigation_wraps 0 (by decide)

/-!
## C3 — reinitialization after an input change uses stale values
-/

/-- A mounted, loaded host showing `Short Interest` on `AMEX:SPY`. -/
def readyHost : HostState :=
  { chartType := "Short Interest", currentSymbol := "AMEX:SPY",
    interval := "D", theme := "dark", tvLoaded := true, loading := false,
    error := none, container := [], instantiations := 1 }

/-- C3 failing input, evaluated: switching the chart type from
`Short Interest` to `MACD` updates the state to `MACD` but reinstantiates
the widget with the configuration derived from `Short Interest` — the
values in effect *before* the change — because the `initializeWidget`
closure invoked by `handleChartTypeChange` captured the previous render's
state.  The two configurations differ, so the widget shown is not the one
derived from the new input values. -/
theorem chartTypeChange_uses_stale_state :
    (hostStep readyHost (.chartTypeChange "MACD")).chartType = "MACD" ∧
    (hostStep readyHost (.chartTypeChange "MACD")).container =
      [createWidgetConfig "D" "dark" "Short Interest" "AMEX:SPY"] ∧
    createWidgetConfig "D" "dark" "Short Interest" "AMEX:SPY" ≠
      createWidgetConfig "D" "dark" "MACD" "AMEX:SPY" := by
  refine ⟨rfl, rfl, ?_⟩
  decide

/-!
## C5 — script-load failure is terminal for the mount attempt
-/

/-- Run a mounted host over a sequence of events. -/
def hostRun (s : HostState) (evs : List HostEvent) : HostState :=
  List.foldl hostStep s evs

/-- While `tv.js` has not loaded, `window.TradingView` stays undefined and
no event instantiates a widget. -/
theorem hostRun_no_load (evs : List HostEvent) :
    ∀ s : HostState, HostEvent.scriptLoad ∉ evs → s.tvLoaded = false →
      (hostRun s evs).tvLoaded = false ∧
      (hostRun s evs).instantiations = s.instantiations := by
  induction evs with
  | nil => exact fun s _ h => ⟨h, rfl⟩
  | cons e rest ih =>
    intro s hnm hload
    have hne : e ≠ HostEvent.scriptLoad :=
      fun hEq => hnm (hEq ▸ List.mem_cons_self e rest)
    have hrest : HostEvent.scriptLoad ∉ rest :=
      fun hm => hnm (List.mem_cons_of_mem e hm)
    have hstep : (hostStep s e).tvLoaded = false ∧
        (hostStep s e).instantiations = s.instantiations := by
      cases e with
      | scriptLoad => exact absurd rfl hne
      | scriptError => exact ⟨hload, rfl⟩
      | chartTypeChange t =>
        simp [hostStep, initializeWidgetFrom, hload]
      | symbolChange y =>
        simp [hostStep, initializeWidgetFrom, hload]
    have := ih (hostStep s e) hrest hstep.1
    exact ⟨this.1, by rw [hostRun] at this ⊢; simpa [hstep.2] using this.2⟩

/-- Once the script-load error is recorded, no later event clears it. -/
theorem hostRun_error_persists (evs : List HostEvent) :
    ∀ s : HostState, s.error = some scriptErrorMessage →
      (hostRun s evs).error = some scriptErrorMessage := by
  induction evs with
  | nil => exact fun s h => h
  | cons e rest ih =>
    intro s h
    refine ih (hostStep s e) ?_
    cases e with
    | scriptLoad => simp [hostStep, initializeWidgetFrom, h]
    | scriptError => rfl
    | chartTypeChange t =>
      simp only [hostStep, initializeWidgetFrom, h]
      split <;> rfl
    | symbolChange y =>
      simp only [hostStep, initializeWidgetFrom, h]
      split <;> rfl

/-- After a `script.onerror` event, the error state is set. -/
theorem hostRun_error_after (evs : List HostEvent) :
    ∀ s : HostState, HostEvent.scriptError ∈ evs →
      (hostRun s evs).error = some scriptErrorMessage := by
  induction evs with
  | nil => intro s h; exact absurd h (List.not_mem_nil _)
  | cons e rest ih =>
    intro s hmem
    rcases List.mem_cons.mp hmem with hEq | hmem'
    · subst hEq
      exact hostRun_error_persists rest (hostStep s HostEvent.scriptError)
        rfl
    · exact ih (hostStep s e) hmem'

/-- C5. For a mount attempt whose external script load fails (the script
fires `onerror`, never `onload`), the host ends in the error state and
renders the error message, and no widget is ever instantiated during that
mount attempt. -/
theorem script_load_failure_terminal (evs : List HostEvent)
    (sym iv th : String)
    (hnoload : HostEvent.scriptLoad ∉ evs)
    (herr : HostEvent.scriptError ∈ evs) :
    (hostRun (initialHostState sym iv th) evs).instantiations = 0 ∧
    renderOutput (hostRun (initialHostState sym iv th) evs) =
      "Error: Failed to load TradingView library" := by
  have h1 := hostRun_no_load evs (initialHostState sym iv th) hnoload rfl
  have h2 := hostRun_error_after evs (initialHostState sym iv th) herr
  exact ⟨h1.2, by rw [renderOutput, h2]; rfl⟩

/-- C5 witness: the script fails and the user still changes inputs; no
widget is created and the error message is rendered. -/
theorem script_load_failure_terminal_witness :
    (hostRun (initialHostState "AMEX:SPY" "D" "dark")
        [HostEvent.scriptError, HostEvent.chartTypeChange "MACD",
         HostEvent.symbolChange "NASDAQ:NVDA"]).instantiations = 0 ∧
    renderOutput (hostRun (initialHostState "AMEX:SPY" "D" "dark")
        [HostEvent.scriptError, HostEvent.chartTypeChange "MACD",
         HostEvent.symbolChange "NASDAQ:NVDA"]) =
      "Error: Failed to load TradingView library" :=
  script_load_failure_terminal
    [HostEvent.scriptError, HostEvent.chartTypeChange "MACD",
     HostEvent.symbolChange "NASDAQ:NVDA"]
    "AMEX:SPY" "D" "dark" (by decide) (by decide)

/-!
## C6 — teardown strictly precedes re-creation
-/

/-- C6. Running the statements of `handleChartTypeChange` one at a time
from any state holding at most one widget handle: every intermediate state
holds at most one handle (so no two handles ever coexist), and the state
reached just before the `initializeWidget()` statement has an empty
container — the previous handle is torn down strictly before the new
widget is created. -/
theorem teardown_before_create (s : HostState) (t : String)
    (h : s.container.length ≤ 1) :
    (∀ s' ∈ microStates s (handleChartTypeChangeActions s t),
       s'.container.length ≤ 1) ∧
    ((microStates s (handleChartTypeChangeActions s t)).getD 2 s).container
      = [] := by
  constructor
  · intro s' hs'
    simp only [microStates, handleChartTypeChangeActions, List.scanl,
               applyMicro, List.mem_cons, List.not_mem_nil,
               or_false] at hs'
    rcases hs' with rfl | rfl | rfl | rfl
    · exact h
    · exact h
    · simp
    · unfold initializeWidgetFrom
      split <;> simp
  · rfl

/-- C6 witness at a loaded host holding one widget handle. -/
theorem teardown_before_create_witness :
    (∀ s' ∈ microStates readyHost
        (handleChartTypeChangeActions readyHost "RSI"),
       s'.container.length ≤ 1) ∧
    ((microStates readyHost
        (handleChartTypeChangeActions readyHost "RSI")).getD 2
        readyHost).container = [] :=
  teardown_before_create readyHost "RSI" (by decide)

/-!
## C8 — `getChartConfig` is pure: helper lemmas on the store
-/

/-- Reading below the old length is unaffected by appended allocations. -/
theorem listGetD_append_left {α : Type} (l ext : List α) (d : α) (r : Nat)
    (h : r < l.length) : (l ++ ext).getD r d = l.getD r d := by
  simp [List.getD_eq_getElem?_getD, List.getElem?_append_left h]

/-- `allocResolved` only allocates: the store grows by a suffix and the
table is untouched. -/
theorem allocResolved_extends (symbol : String) :
    ∀ (refs : List Nat) (w : JSWorld),
      ∃ ext, (allocResolved w refs symbol).2.store = w.store ++ ext ∧
        (allocResolved w refs symbol).2.table = w.table := by
  intro refs
  induction refs with
  | nil => exact fun w => ⟨[], by simp [allocResolved], rfl⟩
  | cons r rs ih =>
    intro w
    obtain ⟨ext, h1, h2⟩ :=
      ih { w with
           store := w.store ++ [resolveCompareSymbol (storeRead w r) symbol] }
    refine ⟨[resolveCompareSymbol (storeRead w r) symbol] ++ ext, ?_, ?_⟩
    · simp only [allocResolved]
      rw [h1, List.append_assoc]
    · simp only [allocResolved]
      exact h2

/-- Reads through the old store are preserved by `allocResolved`. -/
theorem allocResolved_preserves_reads (symbol : String) (refs : List Nat)
    (w : JSWorld) (i : Nat) (h : i < w.store.length) :
    storeRead (allocResolved w refs symbol).2 i = storeRead w i := by
  obtain ⟨ext, hext, -⟩ := allocResolved_extends symbol refs w
  simp only [storeRead, hext]
  exact listGetD_append_left _ _ _ _ h

/-- Unfolding `storeRead`. -/
theorem storeRead_eq (w : JSWorld) (r : Nat) :
    storeRead w r =
      w.store.getD r { symbol := SymField.str "", title := none,
                       position := "" } := rfl

/-- A single fresh allocation does not change reads below the old
length. -/
theorem storeRead_push (w : JSWorld) (fresh : CompareSymbol) (i : Nat)
    (h : i < w.store.length) :
    storeRead { w with store := w.store ++ [fresh] } i = storeRead w i := by
  rw [storeRead_eq, storeRead_eq]
  exact listGetD_append_left _ _ _ _ h

/-- After allocating `fresh` and any further allocations, the read at the
old length returns `fresh`. -/
theorem storeRead_alloc_at_length (symbol : String) (rs : List Nat)
    (w : JSWorld) (fresh : CompareSymbol) :
    storeRead
      (allocResolved { w with store := w.store ++ [fresh] } rs symbol).2
      w.store.length = fresh := by
  obtain ⟨ext, hext, -⟩ :=
    allocResolved_extends symbol rs { w with store := w.store ++ [fresh] }
  rw [storeRead_eq, hext]
  have hlen : w.store.length <
      ({ w with store := w.store ++ [fresh] } : JSWorld).store.length := by
    simp
  rw [listGetD_append_left _ ext _ _ hlen]
  simp [List.getD_eq_getElem?_getD, List.getElem?_concat_length]

/-- Dereferencing the references returned by `allocResolved` in the world
it returns yields exactly the resolved copies of the objects the input
references denoted in the input world. -/
theorem allocResolved_values (symbol : String) :
    ∀ (refs : List Nat) (w : JSWorld),
      (∀ r ∈ refs, r < w.store.length) →
      (allocResolved w refs symbol).1.map
          (storeRead (allocResolved w refs symbol).2) =
        refs.map (fun r => resolveCompareSymbol (storeRead w r) symbol) := by
  intro refs
  induction refs with
  | nil => intro w _; simp [allocResolved]
  | cons r rs ih =>
    intro w hb
    have hstep : allocResolved w (r :: rs) symbol =
        (w.store.length ::
           (allocResolved
             { w with store := w.store ++
                 [resolveCompareSymbol (storeRead w r) symbol] } rs
             symbol).1,
         (allocResolved
             { w with store := w.store ++
                 [resolveCompareSymbol (storeRead w r) symbol] } rs
             symbol).2) := rfl
    rw [hstep]
    have htail := ih
      { w with store := w.store ++
          [resolveCompareSymbol (storeRead w r) symbol] }
      (fun r' hr' => lt_trans (hb r' (List.mem_cons_of_mem r hr'))
        (by simp))
    have htl :
        rs.map (fun r' => resolveCompareSymbol
          (storeRead
            { w with store := w.store ++
                [resolveCompareSymbol (storeRead w r) symbol] } r')
          symbol) =
        rs.map (fun r' => resolveCompareSymbol (storeRead w r') symbol) :=
      List.map_congr_left (fun r' hr' => by
        rw [storeRead_push w _ r' (hb r' (List.mem_cons_of_mem r hr'))])
    simp only [List.map_cons,
      storeRead_alloc_at_length symbol rs w
        (resolveCompareSymbol (storeRead w r) symbol),
      htail, htl]

/-- Bounds on a table entry's references, from world well-formedness. -/
theorem worldWF_bounds (w : JSWorld) (hwf : worldWF w = true)
    (type : String) (entry : List Nat × List String)
    (hl : w.table.lookup type = some entry) :
    ∀ r ∈ entry.1, r < w.store.length := by
  have hmem : (type, entry) ∈ w.table := by
    obtain ⟨l1, l2, hdecomp, -⟩ := List.lookup_eq_some_iff.mp hl
    rw [hdecomp]
    exact List.mem_append_right _ (List.mem_cons_self _ _)
  intro r hr
  have h1 := List.all_eq_true.mp hwf (type, entry) hmem
  have h2 := List.all_eq_true.mp h1 r hr
  simpa using h2

/-- C8. The Configuration Resolver is pure and deterministic over the JS
object graph: calling `getChartConfigH` and then calling it again with the
same chart type and symbol yields equal configuration values, and a call
leaves the `chartConfigs` table — and every previously allocated object —
unchanged (the only state effect is allocating the fresh copies it
returns). -/
theorem getChartConfig_pure (w : JSWorld) (type symbol : String)
    (hwf : worldWF w = true) :
    configValue (getChartConfigH w type symbol).2
        (getChartConfigH w type symbol).1 =
      configValue
        (getChartConfigH (getChartConfigH w type symbol).2 type symbol).2
        (getChartConfigH (getChartConfigH w type symbol).2 type symbol).1 ∧
    (getChartConfigH w type symbol).2.table = w.table ∧
    (∀ i, i < w.store.length →
      storeRead (getChartConfigH w type symbol).2 i = storeRead w i) := by
  cases hl : w.table.lookup type with
  | none =>
    have h1 : getChartConfigH w type symbol = (none, w) := by
      simp [getChartConfigH, hl]
    rw [h1]
    exact ⟨by rw [h1], rfl, fun i _ => rfl⟩
  | some entry =>
    have hbound := worldWF_bounds w hwf type entry hl
    have h1 : getChartConfigH w type symbol =
        (some ((allocResolved w entry.1 symbol).1, entry.2),
         (allocResolved w entry.1 symbol).2) := by
      simp [getChartConfigH, hl]
    obtain ⟨ext, hext, htab⟩ := allocResolved_extends symbol entry.1 w
    have hl2 : (allocResolved w entry.1 symbol).2.table.lookup type =
        some entry := by rw [htab]; exact hl
    have h2 : getChartConfigH (allocResolved w entry.1 symbol).2
        type symbol =
        (some ((allocResolved (allocResolved w entry.1 symbol).2
                  entry.1 symbol).1, entry.2),
         (allocResolved (allocResolved w entry.1 symbol).2
            entry.1 symbol).2) := by
      simp [getChartConfigH, hl2]
    have hbound2 : ∀ r ∈ entry.1,
        r < (allocResolved w entry.1 symbol).2.store.length := by
      intro r hr
      rw [hext, List.length_append]
      exact lt_of_lt_of_le (hbound r hr) (Nat.le_add_right _ _)
    refine ⟨?_, ?_, ?_⟩
    · rw [h1, h2]
      simp only [configValue]
      rw [allocResolved_values symbol entry.1 w hbound,
          allocResolved_values symbol entry.1
            (allocResolved w entry.1 symbol).2 hbound2]
      refine congrArg _ (congrArg (fun l => (l, entry.2)) ?_)
      refine List.map_congr_left (fun r hr => ?_)
      rw [allocResolved_preserves_reads symbol entry.1 w r (hbound r hr)]
    · rw [h1]
      exact htab
    · intro i hi
      rw [h1]
      exact allocResolved_preserves_reads symbol entry.1 w i hi

/-- C8 witness at the module's initial world, tag `Short Interest`, symbol
`NASDAQ:AAPL`. -/
theorem getChartConfig_pure_witness :
    configValue (getChartConfigH initialWorld "Short Interest"
        "NASDAQ:AAPL").2
      (getChartConfigH initialWorld "Short Interest" "NASDAQ:AAPL").1 =
      configValue
        (getChartConfigH
          (getChartConfigH initialWorld "Short Interest" "NASDAQ:AAPL").2
          "Short Interest" "NASDAQ:AAPL").2
        (getChartConfigH
          (getChartConfigH initialWorld "Short Interest" "NASDAQ:AAPL").2
          "Short Interest" "NASDAQ:AAPL").1 ∧
    (getChartConfigH initialWorld "Short Interest" "NASDAQ:AAPL").2.table =
      initialWorld.table ∧
    (∀ i, i < initialWorld.store.length →
      storeRead (getChartConfigH initialWorld "Short Interest"
          "NASDAQ:AAPL").2 i = storeRead initialWorld i) :=
  getChartConfig_pure initialWorld "Short Interest" "NASDAQ:AAPL"
    (by decide)

/-!
## C10 — the two short-volume derivations
-/

/-- C10 counterexample: `"NASDAQ:"` contains exactly one `':'` separator,
yet the inline `AdvancedCharts` derivation (`split(':')[1]`, the empty
segment after the colon) yields `FINRA:_SHORT_VOLUME`, while the resolver
derivation (`split(':').pop() || sym`) hits the falsy fallback on the empty
last segment and yields `FINRA:NASDAQ:_SHORT_VOLUME`.  The two disagree. -/
theorem shortVolume_derivations_disagree :
    ("NASDAQ:".data.count ':') = 1 ∧
    advancedChartsCompareSymbol "NASDAQ:" = "FINRA:_SHORT_VOLUME" ∧
    shortVolumeSymbol "NASDAQ:" = "FINRA:NASDAQ:_SHORT_VOLUME" ∧
    advancedChartsCompareSymbol "NASDAQ:" ≠ shortVolumeSymbol "NASDAQ:" := by
  refine ⟨by decide, rfl, rfl, by decide⟩

/-- C10 amended: for every base symbol that splits on `':'` into exactly
two segments with the second segment *nonempty* (i.e. exactly one colon
not in final position), the inline `AdvancedCharts` derivation and the
resolver's ShortInterest derivation produce the same secondary symbol. -/
theorem shortVolume_derivations_agree (sym ex t : String)
    (hsplit : jsSplit ':' sym = [ex, t]) (hne : t ≠ "") :
    advancedChartsCompareSymbol sym = shortVolumeSymbol sym := by
  unfold advancedChartsCompareSymbol shortVolumeSymbol stockSymbolOf
    jsPop jsIndex
  rw [hsplit]
  simp [hne, List.getLast?]

/-- C10 amended witness at `NASDAQ:AAPL`: both derivations give
`FINRA:AAPL_SHORT_VOLUME`. -/
theorem shortVolume_derivations_agree_witness :
    advancedChartsCompareSymbol "NASDAQ:AAPL" =
      shortVolumeSymbol "NASDAQ:AAPL" ∧
    advancedChartsCompareSymbol "NASDAQ:AAPL" =
      "FINRA:AAPL_SHORT_VOLUME" :=
  ⟨shortVolume_derivations_agree "NASDAQ:AAPL" "NASDAQ" "AAPL"
      (by decide) (by decide),
   rfl⟩
